import Mathlib

/-!
Shallow embedding of `donkeycar/parts/controller.py`: the PS4 joystick raw-event
decoder (`Joystick`) and the stateful controller (`JoystickController`).

Python floats are modelled as rationals (`ℚ`), raw event values as integers,
and the fallible parts of `Joystick.poll` (struct unpacking, list indexing)
return `Except String`.
-/

/-- Python's `round` to a whole number: round half to even (banker's rounding). -/
def pyRound (x : ℚ) : ℤ :=
  let n := ⌊x⌋
  let f := x - n
  if f < 1/2 then n
  else if 1/2 < f then n + 1
  else if n % 2 = 0 then n else n + 1

/-- Python's `round(x, 2)`: round to two decimal places. -/
def round2 (q : ℚ) : ℚ := (pyRound (100 * q) : ℚ) / 100

/-- The state of a `Joystick` object after `init`: the positional maps from
hardware index to semantic name, and the diagnostic caches.  The Python dicts
`axis_states` / `button_states` are modelled as total functions that are `0`
outside the discovered names (matching the dict entries created by `init`). -/
structure Joystick where
  axis_map : List String
  button_map : List String
  axis_states : String → ℚ
  button_states : String → ℤ

/-- The `axis_names` dict of `Joystick.__init__` (hardware axis id → name). -/
def Joystick.axis_names : List (ℕ × String) :=
  [(0x00, "lx"), (0x01, "ly"), (0x02, "l2"), (0x03, "rx"), (0x04, "ry"),
   (0x05, "r2"), (0x10, "dpadx"), (0x11, "dpady")]

/-- The `button_names` dict of `Joystick.__init__` (hardware button id → name). -/
def Joystick.button_names : List (ℕ × String) :=
  [(0x130, "cross"), (0x131, "circle"), (0x133, "triangle"), (0x134, "square"),
   (0x136, "l1"), (0x137, "r1"), (0x138, "l2"), (0x139, "r2"),
   (0x13a, "share"), (0x13b, "options"), (0x13c, "ps"),
   (0x13d, "thumbl"), (0x13e, "thumbr")]

/-- Zero-padded lowercase hexadecimal rendering of a natural number,
as Python's `'%02x' % n` / `'%03x' % n`. -/
def hexPad (w : ℕ) (n : ℕ) : String :=
  let ds := Nat.toDigits 16 n
  String.mk (List.replicate (w - ds.length) '0' ++ ds)

/-- Embedding of `Joystick.init`: build `axis_map`, `button_map`, `axis_states` and
`button_states` from the device-reported axis and button hardware ids
(`buf[:num_axes]` / `buf[:num_buttons]`).  Unknown ids get the synthesized
`'unknown(0x%02x)'` / `'unknown(0x%03x)'` placeholder names; every discovered
axis state starts at `0.0` and every discovered button state at `0`. -/
def Joystick.init (axisIds : List ℕ) (buttonIds : List ℕ) : Joystick :=
  { axis_map := axisIds.map (fun a =>
      ((Joystick.axis_names.lookup a).getD ("unknown(0x" ++ hexPad 2 a ++ ")")))
    button_map := buttonIds.map (fun b =>
      ((Joystick.button_names.lookup b).getD ("unknown(0x" ++ hexPad 3 b ++ ")")))
    axis_states := fun _ => 0
    button_states := fun _ => 0 }

/-- The raw event record unpacked by `struct.unpack('IhBB', evbuf)`:
`tval : u32`, `value : i16`, `typev : u8`, `number : u8`. -/
structure RawEvent where
  tval : ℕ
  value : ℤ
  typev : ℕ
  number : ℕ
  deriving DecidableEq

/-- Embedding of `struct.unpack('IhBB', evbuf)` on a little-endian byte list: succeeds only
on exactly 8 bytes; the `value` field is a sign-extended 16-bit integer. -/
def unpackIhBB (evbuf : List ℕ) : Option RawEvent :=
  match evbuf with
  | [b0, b1, b2, b3, b4, b5, b6, b7] =>
    let u16 := b4 + 256 * b5
    some { tval := b0 + 256 * b1 + 65536 * b2 + 16777216 * b3
           value := if u16 < 32768 then (u16 : ℤ) else (u16 : ℤ) - 65536
           typev := b6
           number := b7 }
  | _ => none

/-- The quadruple returned by `Joystick.poll`:
`(button, button_state, axis, axis_val)`, each `None` when absent. -/
structure PollResult where
  button : Option String
  button_state : Option ℤ
  axis : Option String
  axis_val : Option ℚ
  deriving DecidableEq

/-- The all-`None` poll result. -/
def PollResult.none4 : PollResult := ⟨none, none, none, none⟩

/-- Embedding of `Joystick.poll`: decode one read from the device (an empty read yields the
all-`None` result; a wrong-length read makes `struct.unpack` raise
`struct.error`).  Initialization events (`typev & 0x80`) are ignored.  A button
event (`typev & 0x01`) looks up `button_map[number]` — an out-of-range index
raises `IndexError` — and, when the name is non-empty (Python truthiness),
caches and returns the raw value as the button state.  An axis event
(`typev & 0x02`) looks up `axis_map[number]` likewise and caches and returns
`value / 32767.0`. -/
def Joystick.poll (js : Joystick) (evbuf : List ℕ) :
    Except String (Joystick × PollResult) :=
  if evbuf = [] then .ok (js, PollResult.none4)
  else
    match unpackIhBB evbuf with
    | none => .error "struct.error"
    | some ev =>
      if ev.typev &&& 0x80 ≠ 0 then .ok (js, PollResult.none4)
      else
        let buttonPart : Except String (Joystick × Option String × Option ℤ) :=
          if ev.typev &&& 0x01 ≠ 0 then
            match js.button_map.get? ev.number with
            | none => .error "IndexError"
            | some b =>
              if b ≠ "" then
                .ok ({ js with button_states :=
                         fun n => if n = b then ev.value else js.button_states n },
                     some b, some ev.value)
              else .ok (js, some b, none)
          else .ok (js, none, none)
        match buttonPart with
        | .error e => .error e
        | .ok (js1, button, button_state) =>
          if ev.typev &&& 0x02 ≠ 0 then
            match js1.axis_map.get? ev.number with
            | none => .error "IndexError"
            | some a =>
              if a ≠ "" then
                let fvalue : ℚ := (ev.value : ℚ) / 32767
                .ok ({ js1 with axis_states :=
                         fun n => if n = a then fvalue else js1.axis_states n },
                     ⟨button, button_state, some a, some fvalue⟩)
              else .ok (js1, ⟨button, button_state, some a, none⟩)
          else .ok (js1, ⟨button, button_state, none, none⟩)

/-- The mutable state of a `JoystickController`, as set up by `__init__`
(with the configuration fields that the update step reads). -/
structure JoystickController where
  angle : ℚ
  throttle : ℚ
  mode : String
  max_throttle : ℚ
  steering_axis : String
  throttle_axis : String
  steering_scale : ℚ
  throttle_scale : ℚ
  recording : Bool
  constant_throttle : Bool
  auto_record_on_throttle : Bool
  deriving DecidableEq

/-- Embedding of `JoystickController.__init__` with the controller's defaults for the
non-configuration state: `angle = 0`, `throttle = 0`, `mode = 'user'`,
`recording = False`, `constant_throttle = False`. -/
def JoystickController.init (max_throttle : ℚ) (steering_axis throttle_axis : String)
    (steering_scale throttle_scale : ℚ) (auto_record_on_throttle : Bool) :
    JoystickController :=
  { angle := 0
    throttle := 0
    mode := "user"
    max_throttle := max_throttle
    steering_axis := steering_axis
    throttle_axis := throttle_axis
    steering_scale := steering_scale
    throttle_scale := throttle_scale
    recording := false
    constant_throttle := false
    auto_record_on_throttle := auto_record_on_throttle }

/-- Embedding of `JoystickController.on_throttle_changes`: when `auto_record_on_throttle`
is set, recording follows `(throttle != 0.0 and mode == 'user')`. -/
def JoystickController.on_throttle_changes (s : JoystickController) : JoystickController :=
  if s.auto_record_on_throttle then
    { s with recording := decide (s.throttle ≠ 0 ∧ s.mode = "user") }
  else s

/-- The `if axis == self.steering_axis` block of `JoystickController.update`. -/
def axisSteering (axis : String) (axis_val : ℚ) (s : JoystickController) :
    JoystickController :=
  if axis = s.steering_axis then { s with angle := s.steering_scale * axis_val } else s

/-- The `if axis == self.throttle_axis` block of `JoystickController.update`. -/
def axisThrottle (axis : String) (axis_val : ℚ) (s : JoystickController) :
    JoystickController :=
  if axis = s.throttle_axis then
    JoystickController.on_throttle_changes
      { s with throttle := s.throttle_scale * axis_val * s.max_throttle }
  else s

/-- The `if axis == 'dpadx'` block of `JoystickController.update`
(steering-scale adjustment). -/
def axisDpadx (axis : String) (axis_val : ℚ) (s : JoystickController) :
    JoystickController :=
  if axis = "dpadx" ∧ axis_val ≠ 0 then
    if axis_val > 0 then
      { s with steering_scale := round2 (min 1 (s.steering_scale + 0.05)) }
    else
      { s with steering_scale := round2 (max 0 (s.steering_scale - 0.05)) }
  else s

/-- The `if axis == 'dpady'` block of `JoystickController.update`
(throttle-scale adjustment). -/
def axisDpady (axis : String) (axis_val : ℚ) (s : JoystickController) :
    JoystickController :=
  if axis = "dpady" ∧ axis_val ≠ 0 then
    if axis_val < 0 then
      { s with throttle_scale := round2 (max (-1) (s.throttle_scale - 0.05)) }
    else
      { s with throttle_scale := round2 (min 0 (s.throttle_scale + 0.05)) }
  else s

/-- The `if button == 'option'` block of `JoystickController.update`
(mode switch: `user → local_angle → local → user`). -/
def buttonOption (button : String) (button_state : ℤ) (s : JoystickController) :
    JoystickController :=
  if button = "option" ∧ button_state = 1 then
    { s with mode := if s.mode = "user" then "local_angle"
             else if s.mode = "local_angle" then "local"
             else "user" }
  else s

/-- The `if button == 'circle'` block of `JoystickController.update`
(recording toggle, disabled under `auto_record_on_throttle`). -/
def buttonCircle (button : String) (button_state : ℤ) (s : JoystickController) :
    JoystickController :=
  if button = "circle" ∧ button_state = 1 then
    if s.auto_record_on_throttle then s
    else if s.recording then { s with recording := false }
    else { s with recording := true }
  else s

/-- The `if button == 'r1'` block of `JoystickController.update`
(increase max throttle). -/
def buttonR1 (button : String) (button_state : ℤ) (s : JoystickController) :
    JoystickController :=
  if button = "r1" ∧ button_state = 1 then
    let s := { s with max_throttle := round2 (min 1 (s.max_throttle + 0.01)) }
    if s.constant_throttle then
      JoystickController.on_throttle_changes { s with throttle := s.max_throttle }
    else s
  else s

/-- The `if button == 'l1'` block of `JoystickController.update`
(decrease max throttle). -/
def buttonL1 (button : String) (button_state : ℤ) (s : JoystickController) :
    JoystickController :=
  if button = "l1" ∧ button_state = 1 then
    let s := { s with max_throttle := round2 (max 0 (s.max_throttle - 0.01)) }
    if s.constant_throttle then
      JoystickController.on_throttle_changes { s with throttle := s.max_throttle }
    else s
  else s

/-- The `if button == 'r2'` block of `JoystickController.update`
(increase throttle scale). -/
def buttonR2 (button : String) (button_state : ℤ) (s : JoystickController) :
    JoystickController :=
  if button = "r2" ∧ button_state = 1 then
    { s with throttle_scale := round2 (min 0 (s.throttle_scale + 0.05)) }
  else s

/-- The `if button == 'l2'` block of `JoystickController.update`
(decrease throttle scale). -/
def buttonL2 (button : String) (button_state : ℤ) (s : JoystickController) :
    JoystickController :=
  if button = "l2" ∧ button_state = 1 then
    { s with throttle_scale := round2 (max (-1) (s.throttle_scale - 0.05)) }
  else s

/-- The `if button == 'triangle'` block of `JoystickController.update`
(constant-throttle toggle). -/
def buttonTriangle (button : String) (button_state : ℤ) (s : JoystickController) :
    JoystickController :=
  if button = "triangle" ∧ button_state = 1 then
    if s.constant_throttle then
      JoystickController.on_throttle_changes
        { s with constant_throttle := false, throttle := 0 }
    else
      JoystickController.on_throttle_changes
        { s with constant_throttle := true, throttle := s.max_throttle }
  else s

/-- One iteration of the `while self.running` body of
`JoystickController.update`, after `poll` has returned
`(button, button_state, axis, axis_val)`: the sequence of dispatch `if`s on the
axis name, in source order, followed by the dispatch `if`s on the button name
and state, in source order.  In `poll`'s output `axis_val` is present exactly
when `axis` is a non-empty name (and likewise `button_state` for `button`), so
the dispatch matches on the name/value pair together. -/
def JoystickController.updateStep (s : JoystickController) (r : PollResult) :
    JoystickController :=
  let s :=
    match r.axis, r.axis_val with
    | some axis, some axis_val =>
      axisDpady axis axis_val (axisDpadx axis axis_val
        (axisThrottle axis axis_val (axisSteering axis axis_val s)))
    | _, _ => s
  match r.button, r.button_state with
  | some button, some button_state =>
    buttonTriangle button button_state (buttonL2 button button_state
      (buttonR2 button button_state (buttonL1 button button_state
        (buttonR1 button button_state (buttonCircle button button_state
          (buttonOption button button_state s))))))
  | _, _ => s

/-- A single normalized observation, as in the spec's data model: either a
button change (`state` is the raw value, `1` = pressed) or an axis move
(`value` already normalized by `/ 32767.0`). -/
inductive Obs where
  | buttonChanged (name : String) (state : ℤ)
  | axisMoved (name : String) (value : ℚ)
  deriving DecidableEq

/-- The poll quadruple corresponding to a single observation. -/
def Obs.toPollResult : Obs → PollResult
  | .buttonChanged n st => ⟨some n, some st, none, none⟩
  | .axisMoved n v => ⟨none, none, some n, some v⟩

/-- Apply one observation to the controller state. -/
def applyObs (s : JoystickController) (o : Obs) : JoystickController :=
  s.updateStep o.toPollResult

/-! Field-preservation lemmas: each dispatch block leaves every controller
field it does not assign unchanged. -/

@[simp] lemma axisSteering_throttle (a : String) (v : ℚ) (s : JoystickController) :
    (axisSteering a v s).throttle = s.throttle := by
  simp only [axisSteering, JoystickController.on_throttle_changes]; split_ifs <;> rfl

@[simp] lemma axisSteering_mode (a : String) (v : ℚ) (s : JoystickController) :
    (axisSteering a v s).mode = s.mode := by
  simp only [axisSteering, JoystickController.on_throttle_changes]; split_ifs <;> rfl

@[simp] lemma axisSteering_max_throttle (a : String) (v : ℚ) (s : JoystickController) :
    (axisSteering a v s).max_throttle = s.max_throttle := by
  simp only [axisSteering, JoystickController.on_throttle_changes]; split_ifs <;> rfl

@[simp] lemma axisSteering_steering_axis (a : String) (v : ℚ) (s : JoystickController) :
    (axisSteering a v s).steering_axis = s.steering_axis := by
  simp only [axisSteering, JoystickController.on_throttle_changes]; split_ifs <;> rfl

@[simp] lemma axisSteering_throttle_axis (a : String) (v : ℚ) (s : JoystickController) :
    (axisSteering a v s).throttle_axis = s.throttle_axis := by
  simp only [axisSteering, JoystickController.on_throttle_changes]; split_ifs <;> rfl

@[simp] lemma axisSteering_steering_scale (a : String) (v : ℚ) (s : JoystickController) :
    (axisSteering a v s).steering_scale = s.steering_scale := by
  simp only [axisSteering, JoystickController.on_throttle_changes]; split_ifs <;> rfl

@[simp] lemma axisSteering_throttle_scale (a : String) (v : ℚ) (s : JoystickController) :
    (axisSteering a v s).throttle_scale = s.throttle_scale := by
  simp only [axisSteering, JoystickController.on_throttle_changes]; split_ifs <;> rfl

@[simp] lemma axisSteering_recording (a : String) (v : ℚ) (s : JoystickController) :
    (axisSteering a v s).recording = s.recording := by
  simp only [axisSteering, JoystickController.on_throttle_changes]; split_ifs <;> rfl

@[simp] lemma axisSteering_constant_throttle (a : String) (v : ℚ) (s : JoystickController) :
    (axisSteering a v s).constant_throttle = s.constant_throttle := by
  simp only [axisSteering, JoystickController.on_throttle_changes]; split_ifs <;> rfl

@[simp] lemma axisSteering_auto_record_on_throttle (a : String) (v : ℚ) (s : JoystickController) :
    (axisSteering a v s).auto_record_on_throttle = s.auto_record_on_throttle := by
  simp only [axisSteering, JoystickController.on_throttle_changes]; split_ifs <;> rfl

@[simp] lemma axisThrottle_angle (a : String) (v : ℚ) (s : JoystickController) :
    (axisThrottle a v s).angle = s.angle := by
  simp only [axisThrottle, JoystickController.on_throttle_changes]; split_ifs <;> rfl

@[simp] lemma axisThrottle_mode (a : String) (v : ℚ) (s : JoystickController) :
    (axisThrottle a v s).mode = s.mode := by
  simp only [axisThrottle, JoystickController.on_throttle_changes]; split_ifs <;> rfl

@[simp] lemma axisThrottle_max_throttle (a : String) (v : ℚ) (s : JoystickController) :
    (axisThrottle a v s).max_throttle = s.max_throttle := by
  simp only [axisThrottle, JoystickController.on_throttle_changes]; split_ifs <;> rfl

@[simp] lemma axisThrottle_steering_axis (a : String) (v : ℚ) (s : JoystickController) :
    (axisThrottle a v s).steering_axis = s.steering_axis := by
  simp only [axisThrottle, JoystickController.on_throttle_changes]; split_ifs <;> rfl

@[simp] lemma axisThrottle_throttle_axis (a : String) (v : ℚ) (s : JoystickController) :
    (axisThrottle a v s).throttle_axis = s.throttle_axis := by
  simp only [axisThrottle, JoystickController.on_throttle_changes]; split_ifs <;> rfl

@[simp] lemma axisThrottle_steering_scale (a : String) (v : ℚ) (s : JoystickController) :
    (axisThrottle a v s).steering_scale = s.steering_scale := by
  simp only [axisThrottle, JoystickController.on_throttle_changes]; split_ifs <;> rfl

@[simp] lemma axisThrottle_throttle_scale (a : String) (v : ℚ) (s : JoystickController) :
    (axisThrottle a v s).throttle_scale = s.throttle_scale := by
  simp only [axisThrottle, JoystickController.on_throttle_changes]; split_ifs <;> rfl

@[simp] lemma axisThrottle_constant_throttle (a : String) (v : ℚ) (s : JoystickController) :
    (axisThrottle a v s).constant_throttle = s.constant_throttle := by
  simp only [axisThrottle, JoystickController.on_throttle_changes]; split_ifs <;> rfl

@[simp] lemma axisThrottle_auto_record_on_throttle (a : String) (v : ℚ) (s : JoystickController) :
    (axisThrottle a v s).auto_record_on_throttle = s.auto_record_on_throttle := by
  simp only [axisThrottle, JoystickController.on_throttle_changes]; split_ifs <;> rfl

@[simp] lemma axisDpadx_angle (a : String) (v : ℚ) (s : JoystickController) :
    (axisDpadx a v s).angle = s.angle := by
  simp only [axisDpadx, JoystickController.on_throttle_changes]; split_ifs <;> rfl

@[simp] lemma axisDpadx_throttle (a : String) (v : ℚ) (s : JoystickController) :
    (axisDpadx a v s).throttle = s.throttle := by
  simp only [axisDpadx, JoystickController.on_throttle_changes]; split_ifs <;> rfl

@[simp] lemma axisDpadx_mode (a : String) (v : ℚ) (s : JoystickController) :
    (axisDpadx a v s).mode = s.mode := by
  simp only [axisDpadx, JoystickController.on_throttle_changes]; split_ifs <;> rfl

@[simp] lemma axisDpadx_max_throttle (a : String) (v : ℚ) (s : JoystickController) :
    (axisDpadx a v s).max_throttle = s.max_throttle := by
  simp only [axisDpadx, JoystickController.on_throttle_changes]; split_ifs <;> rfl

@[simp] lemma axisDpadx_steering_axis (a : String) (v : ℚ) (s : JoystickController) :
    (axisDpadx a v s).steering_axis = s.steering_axis := by
  simp only [axisDpadx, JoystickController.on_throttle_changes]; split_ifs <;> rfl

@[simp] lemma axisDpadx_throttle_axis (a : String) (v : ℚ) (s : JoystickController) :
    (axisDpadx a v s).throttle_axis = s.throttle_axis := by
  simp only [axisDpadx, JoystickController.on_throttle_changes]; split_ifs <;> rfl

@[simp] lemma axisDpadx_throttle_scale (a : String) (v : ℚ) (s : JoystickController) :
    (axisDpadx a v s).throttle_scale = s.throttle_scale := by
  simp only [axisDpadx, JoystickController.on_throttle_changes]; split_ifs <;> rfl

@[simp] lemma axisDpadx_recording (a : String) (v : ℚ) (s : JoystickController) :
    (axisDpadx a v s).recording = s.recording := by
  simp only [axisDpadx, JoystickController.on_throttle_changes]; split_ifs <;> rfl

@[simp] lemma axisDpadx_constant_throttle (a : String) (v : ℚ) (s : JoystickController) :
    (axisDpadx a v s).constant_throttle = s.constant_throttle := by
  simp only [axisDpadx, JoystickController.on_throttle_changes]; split_ifs <;> rfl

@[simp] lemma axisDpadx_auto_record_on_throttle (a : String) (v : ℚ) (s : JoystickController) :
    (axisDpadx a v s).auto_record_on_throttle = s.auto_record_on_throttle := by
  simp only [axisDpadx, JoystickController.on_throttle_changes]; split_ifs <;> rfl

@[simp] lemma axisDpady_angle (a : String) (v : ℚ) (s : JoystickController) :
    (axisDpady a v s).angle = s.angle := by
  simp only [axisDpady, JoystickController.on_throttle_changes]; split_ifs <;> rfl

@[simp] lemma axisDpady_throttle (a : String) (v : ℚ) (s : JoystickController) :
    (axisDpady a v s).throttle = s.throttle := by
  simp only [axisDpady, JoystickController.on_throttle_changes]; split_ifs <;> rfl

@[simp] lemma axisDpady_mode (a : String) (v : ℚ) (s : JoystickController) :
    (axisDpady a v s).mode = s.mode := by
  simp only [axisDpady, JoystickController.on_throttle_changes]; split_ifs <;> rfl

@[simp] lemma axisDpady_max_throttle (a : String) (v : ℚ) (s : JoystickController) :
    (axisDpady a v s).max_throttle = s.max_throttle := by
  simp only [axisDpady, JoystickController.on_throttle_changes]; split_ifs <;> rfl

@[simp] lemma axisDpady_steering_axis (a : String) (v : ℚ) (s : JoystickController) :
    (axisDpady a v s).steering_axis = s.steering_axis := by
  simp only [axisDpady, JoystickController.on_throttle_changes]; split_ifs <;> rfl

@[simp] lemma axisDpady_throttle_axis (a : String) (v : ℚ) (s : JoystickController) :
    (axisDpady a v s).throttle_axis = s.throttle_axis := by
  simp only [axisDpady, JoystickController.on_throttle_changes]; split_ifs <;> rfl

@[simp] lemma axisDpady_steering_scale (a : String) (v : ℚ) (s : JoystickController) :
    (axisDpady a v s).steering_scale = s.steering_scale := by
  simp only [axisDpady, JoystickController.on_throttle_changes]; split_ifs <;> rfl

@[simp] lemma axisDpady_recording (a : String) (v : ℚ) (s : JoystickController) :
    (axisDpady a v s).recording = s.recording := by
  simp only [axisDpady, JoystickController.on_throttle_changes]; split_ifs <;> rfl

@[simp] lemma axisDpady_constant_throttle (a : String) (v : ℚ) (s : JoystickController) :
    (axisDpady a v s).constant_throttle = s.constant_throttle := by
  simp only [axisDpady, JoystickController.on_throttle_changes]; split_ifs <;> rfl

@[simp] lemma axisDpady_auto_record_on_throttle (a : String) (v : ℚ) (s : JoystickController) :
    (axisDpady a v s).auto_record_on_throttle = s.auto_record_on_throttle := by
  simp only [axisDpady, JoystickController.on_throttle_changes]; split_ifs <;> rfl

@[simp] lemma buttonOption_angle (b : String) (st : ℤ) (s : JoystickController) :
    (buttonOption b st s).angle = s.angle := by
  simp only [buttonOption, JoystickController.on_throttle_changes]; split_ifs <;> rfl

@[simp] lemma buttonOption_throttle (b : String) (st : ℤ) (s : JoystickController) :
    (buttonOption b st s).throttle = s.throttle := by
  simp only [buttonOption, JoystickController.on_throttle_changes]; split_ifs <;> rfl

@[simp] lemma buttonOption_max_throttle (b : String) (st : ℤ) (s : JoystickController) :
    (buttonOption b st s).max_throttle = s.max_throttle := by
  simp only [buttonOption, JoystickController.on_throttle_changes]; split_ifs <;> rfl

@[simp] lemma buttonOption_steering_axis (b : String) (st : ℤ) (s : JoystickController) :
    (buttonOption b st s).steering_axis = s.steering_axis := by
  simp only [buttonOption, JoystickController.on_throttle_changes]; split_ifs <;> rfl

@[simp] lemma buttonOption_throttle_axis (b : String) (st : ℤ) (s : JoystickController) :
    (buttonOption b st s).throttle_axis = s.throttle_axis := by
  simp only [buttonOption, JoystickController.on_throttle_changes]; split_ifs <;> rfl

@[simp] lemma buttonOption_steering_scale (b : String) (st : ℤ) (s : JoystickController) :
    (buttonOption b st s).steering_scale = s.steering_scale := by
  simp only [buttonOption, JoystickController.on_throttle_changes]; split_ifs <;> rfl

@[simp] lemma buttonOption_throttle_scale (b : String) (st : ℤ) (s : JoystickController) :
    (buttonOption b st s).throttle_scale = s.throttle_scale := by
  simp only [buttonOption, JoystickController.on_throttle_changes]; split_ifs <;> rfl

@[simp] lemma buttonOption_recording (b : String) (st : ℤ) (s : JoystickController) :
    (buttonOption b st s).recording = s.recording := by
  simp only [buttonOption, JoystickController.on_throttle_changes]; split_ifs <;> rfl

@[simp] lemma buttonOption_constant_throttle (b : String) (st : ℤ) (s : JoystickController) :
    (buttonOption b st s).constant_throttle = s.constant_throttle := by
  simp only [buttonOption, JoystickController.on_throttle_changes]; split_ifs <;> rfl

@[simp] lemma buttonOption_auto_record_on_throttle (b : String) (st : ℤ) (s : JoystickController) :
    (buttonOption b st s).auto_record_on_throttle = s.auto_record_on_throttle := by
  simp only [buttonOption, JoystickController.on_throttle_changes]; split_ifs <;> rfl

@[simp] lemma buttonCircle_angle (b : String) (st : ℤ) (s : JoystickController) :
    (buttonCircle b st s).angle = s.angle := by
  simp only [buttonCircle, JoystickController.on_throttle_changes]; split_ifs <;> rfl

@[simp] lemma buttonCircle_throttle (b : String) (st : ℤ) (s : JoystickController) :
    (buttonCircle b st s).throttle = s.throttle := by
  simp only [buttonCircle, JoystickController.on_throttle_changes]; split_ifs <;> rfl

@[simp] lemma buttonCircle_mode (b : String) (st : ℤ) (s : JoystickController) :
    (buttonCircle b st s).mode = s.mode := by
  simp only [buttonCircle, JoystickController.on_throttle_changes]; split_ifs <;> rfl

@[simp] lemma buttonCircle_max_throttle (b : String) (st : ℤ) (s : JoystickController) :
    (buttonCircle b st s).max_throttle = s.max_throttle := by
  simp only [buttonCircle, JoystickController.on_throttle_changes]; split_ifs <;> rfl

@[simp] lemma buttonCircle_steering_axis (b : String) (st : ℤ) (s : JoystickController) :
    (buttonCircle b st s).steering_axis = s.steering_axis := by
  simp only [buttonCircle, JoystickController.on_throttle_changes]; split_ifs <;> rfl

@[simp] lemma buttonCircle_throttle_axis (b : String) (st : ℤ) (s : JoystickController) :
    (buttonCircle b st s).throttle_axis = s.throttle_axis := by
  simp only [buttonCircle, JoystickController.on_throttle_changes]; split_ifs <;> rfl

@[simp] lemma buttonCircle_steering_scale (b : String) (st : ℤ) (s : JoystickController) :
    (buttonCircle b st s).steering_scale = s.steering_scale := by
  simp only [buttonCircle, JoystickController.on_throttle_changes]; split_ifs <;> rfl

@[simp] lemma buttonCircle_throttle_scale (b : String) (st : ℤ) (s : JoystickController) :
    (buttonCircle b st s).throttle_scale = s.throttle_scale := by
  simp only [buttonCircle, JoystickController.on_throttle_changes]; split_ifs <;> rfl

@[simp] lemma buttonCircle_constant_throttle (b : String) (st : ℤ) (s : JoystickController) :
    (buttonCircle b st s).constant_throttle = s.constant_throttle := by
  simp only [buttonCircle, JoystickController.on_throttle_changes]; split_ifs <;> rfl

@[simp] lemma buttonCircle_auto_record_on_throttle (b : String) (st : ℤ) (s : JoystickController) :
    (buttonCircle b st s).auto_record_on_throttle = s.auto_record_on_throttle := by
  simp only [buttonCircle, JoystickController.on_throttle_changes]; split_ifs <;> rfl

@[simp] lemma buttonR1_angle (b : String) (st : ℤ) (s : JoystickController) :
    (buttonR1 b st s).angle = s.angle := by
  simp only [buttonR1, JoystickController.on_throttle_changes]; split_ifs <;> rfl

@[simp] lemma buttonR1_mode (b : String) (st : ℤ) (s : JoystickController) :
    (buttonR1 b st s).mode = s.mode := by
  simp only [buttonR1, JoystickController.on_throttle_changes]; split_ifs <;> rfl

@[simp] lemma buttonR1_steering_axis (b : String) (st : ℤ) (s : JoystickController) :
    (buttonR1 b st s).steering_axis = s.steering_axis := by
  simp only [buttonR1, JoystickController.on_throttle_changes]; split_ifs <;> rfl

@[simp] lemma buttonR1_throttle_axis (b : String) (st : ℤ) (s : JoystickController) :
    (buttonR1 b st s).throttle_axis = s.throttle_axis := by
  simp only [buttonR1, JoystickController.on_throttle_changes]; split_ifs <;> rfl

@[simp] lemma buttonR1_steering_scale (b : String) (st : ℤ) (s : JoystickController) :
    (buttonR1 b st s).steering_scale = s.steering_scale := by
  simp only [buttonR1, JoystickController.on_throttle_changes]; split_ifs <;> rfl

@[simp] lemma buttonR1_throttle_scale (b : String) (st : ℤ) (s : JoystickController) :
    (buttonR1 b st s).throttle_scale = s.throttle_scale := by
  simp only [buttonR1, JoystickController.on_throttle_changes]; split_ifs <;> rfl

@[simp] lemma buttonR1_constant_throttle (b : String) (st : ℤ) (s : JoystickController) :
    (buttonR1 b st s).constant_throttle = s.constant_throttle := by
  simp only [buttonR1, JoystickController.on_throttle_changes]; split_ifs <;> rfl

@[simp] lemma buttonR1_auto_record_on_throttle (b : String) (st : ℤ) (s : JoystickController) :
    (buttonR1 b st s).auto_record_on_throttle = s.auto_record_on_throttle := by
  simp only [buttonR1, JoystickController.on_throttle_changes]; split_ifs <;> rfl

@[simp] lemma buttonL1_angle (b : String) (st : ℤ) (s : JoystickController) :
    (buttonL1 b st s).angle = s.angle := by
  simp only [buttonL1, JoystickController.on_throttle_changes]; split_ifs <;> rfl

@[simp] lemma buttonL1_mode (b : String) (st : ℤ) (s : JoystickController) :
    (buttonL1 b st s).mode = s.mode := by
  simp only [buttonL1, JoystickController.on_throttle_changes]; split_ifs <;> rfl

@[simp] lemma buttonL1_steering_axis (b : String) (st : ℤ) (s : JoystickController) :
    (buttonL1 b st s).steering_axis = s.steering_axis := by
  simp only [buttonL1, JoystickController.on_throttle_changes]; split_ifs <;> rfl

@[simp] lemma buttonL1_throttle_axis (b : String) (st : ℤ) (s : JoystickController) :
    (buttonL1 b st s).throttle_axis = s.throttle_axis := by
  simp only [buttonL1, JoystickController.on_throttle_changes]; split_ifs <;> rfl

@[simp] lemma buttonL1_steering_scale (b : String) (st : ℤ) (s : JoystickController) :
    (buttonL1 b st s).steering_scale = s.steering_scale := by
  simp only [buttonL1, JoystickController.on_throttle_changes]; split_ifs <;> rfl

@[simp] lemma buttonL1_throttle_scale (b : String) (st : ℤ) (s : JoystickController) :
    (buttonL1 b st s).throttle_scale = s.throttle_scale := by
  simp only [buttonL1, JoystickController.on_throttle_changes]; split_ifs <;> rfl

@[simp] lemma buttonL1_constant_throttle (b : String) (st : ℤ) (s : JoystickController) :
    (buttonL1 b st s).constant_throttle = s.constant_throttle := by
  simp only [buttonL1, JoystickController.on_throttle_changes]; split_ifs <;> rfl

@[simp] lemma buttonL1_auto_record_on_throttle (b : String) (st : ℤ) (s : JoystickController) :
    (buttonL1 b st s).auto_record_on_throttle = s.auto_record_on_throttle := by
  simp only [buttonL1, JoystickController.on_throttle_changes]; split_ifs <;> rfl

@[simp] lemma buttonR2_angle (b : String) (st : ℤ) (s : JoystickController) :
    (buttonR2 b st s).angle = s.angle := by
  simp only [buttonR2, JoystickController.on_throttle_changes]; split_ifs <;> rfl

@[simp] lemma buttonR2_throttle (b : String) (st : ℤ) (s : JoystickController) :
    (buttonR2 b st s).throttle = s.throttle := by
  simp only [buttonR2, JoystickController.on_throttle_changes]; split_ifs <;> rfl

@[simp] lemma buttonR2_mode (b : String) (st : ℤ) (s : JoystickController) :
    (buttonR2 b st s).mode = s.mode := by
  simp only [buttonR2, JoystickController.on_throttle_changes]; split_ifs <;> rfl

@[simp] lemma buttonR2_max_throttle (b : String) (st : ℤ) (s : JoystickController) :
    (buttonR2 b st s).max_throttle = s.max_throttle := by
  simp only [buttonR2, JoystickController.on_throttle_changes]; split_ifs <;> rfl

@[simp] lemma buttonR2_steering_axis (b : String) (st : ℤ) (s : JoystickController) :
    (buttonR2 b st s).steering_axis = s.steering_axis := by
  simp only [buttonR2, JoystickController.on_throttle_changes]; split_ifs <;> rfl

@[simp] lemma buttonR2_throttle_axis (b : String) (st : ℤ) (s : JoystickController) :
    (buttonR2 b st s).throttle_axis = s.throttle_axis := by
  simp only [buttonR2, JoystickController.on_throttle_changes]; split_ifs <;> rfl

@[simp] lemma buttonR2_steering_scale (b : String) (st : ℤ) (s : JoystickController) :
    (buttonR2 b st s).steering_scale = s.steering_scale := by
  simp only [buttonR2, JoystickController.on_throttle_changes]; split_ifs <;> rfl

@[simp] lemma buttonR2_recording (b : String) (st : ℤ) (s : JoystickController) :
    (buttonR2 b st s).recording = s.recording := by
  simp only [buttonR2, JoystickController.on_throttle_changes]; split_ifs <;> rfl

@[simp] lemma buttonR2_constant_throttle (b : String) (st : ℤ) (s : JoystickController) :
    (buttonR2 b st s).constant_throttle = s.constant_throttle := by
  simp only [buttonR2, JoystickController.on_throttle_changes]; split_ifs <;> rfl

@[simp] lemma buttonR2_auto_record_on_throttle (b : String) (st : ℤ) (s : JoystickController) :
    (buttonR2 b st s).auto_record_on_throttle = s.auto_record_on_throttle := by
  simp only [buttonR2, JoystickController.on_throttle_changes]; split_ifs <;> rfl

@[simp] lemma buttonL2_angle (b : String) (st : ℤ) (s : JoystickController) :
    (buttonL2 b st s).angle = s.angle := by
  simp only [buttonL2, JoystickController.on_throttle_changes]; split_ifs <;> rfl

@[simp] lemma buttonL2_throttle (b : String) (st : ℤ) (s : JoystickController) :
    (buttonL2 b st s).throttle = s.throttle := by
  simp only [buttonL2, JoystickController.on_throttle_changes]; split_ifs <;> rfl

@[simp] lemma buttonL2_mode (b : String) (st : ℤ) (s : JoystickController) :
    (buttonL2 b st s).mode = s.mode := by
  simp only [buttonL2, JoystickController.on_throttle_changes]; split_ifs <;> rfl

@[simp] lemma buttonL2_max_throttle (b : String) (st : ℤ) (s : JoystickController) :
    (buttonL2 b st s).max_throttle = s.max_throttle := by
  simp only [buttonL2, JoystickController.on_throttle_changes]; split_ifs <;> rfl

@[simp] lemma buttonL2_steering_axis (b : String) (st : ℤ) (s : JoystickController) :
    (buttonL2 b st s).steering_axis = s.steering_axis := by
  simp only [buttonL2, JoystickController.on_throttle_changes]; split_ifs <;> rfl

@[simp] lemma buttonL2_throttle_axis (b : String) (st : ℤ) (s : JoystickController) :
    (buttonL2 b st s).throttle_axis = s.throttle_axis := by
  simp only [buttonL2, JoystickController.on_throttle_changes]; split_ifs <;> rfl

@[simp] lemma buttonL2_steering_scale (b : String) (st : ℤ) (s : JoystickController) :
    (buttonL2 b st s).steering_scale = s.steering_scale := by
  simp only [buttonL2, JoystickController.on_throttle_changes]; split_ifs <;> rfl

@[simp] lemma buttonL2_recording (b : String) (st : ℤ) (s : JoystickController) :
    (buttonL2 b st s).recording = s.recording := by
  simp only [buttonL2, JoystickController.on_throttle_changes]; split_ifs <;> rfl

@[simp] lemma buttonL2_constant_throttle (b : String) (st : ℤ) (s : JoystickController) :
    (buttonL2 b st s).constant_throttle = s.constant_throttle := by
  simp only [buttonL2, JoystickController.on_throttle_changes]; split_ifs <;> rfl

@[simp] lemma buttonL2_auto_record_on_throttle (b : String) (st : ℤ) (s : JoystickController) :
    (buttonL2 b st s).auto_record_on_throttle = s.auto_record_on_throttle := by
  simp only [buttonL2, JoystickController.on_throttle_changes]; split_ifs <;> rfl

@[simp] lemma buttonTriangle_angle (b : String) (st : ℤ) (s : JoystickController) :
    (buttonTriangle b st s).angle = s.angle := by
  simp only [buttonTriangle, JoystickController.on_throttle_changes]; split_ifs <;> rfl

@[simp] lemma buttonTriangle_mode (b : String) (st : ℤ) (s : JoystickController) :
    (buttonTriangle b st s).mode = s.mode := by
  simp only [buttonTriangle, JoystickController.on_throttle_changes]; split_ifs <;> rfl

@[simp] lemma buttonTriangle_max_throttle (b : String) (st : ℤ) (s : JoystickController) :
    (buttonTriangle b st s).max_throttle = s.max_throttle := by
  simp only [buttonTriangle, JoystickController.on_throttle_changes]; split_ifs <;> rfl

@[simp] lemma buttonTriangle_steering_axis (b : String) (st : ℤ) (s : JoystickController) :
    (buttonTriangle b st s).steering_axis = s.steering_axis := by
  simp only [buttonTriangle, JoystickController.on_throttle_changes]; split_ifs <;> rfl

@[simp] lemma buttonTriangle_throttle_axis (b : String) (st : ℤ) (s : JoystickController) :
    (buttonTriangle b st s).throttle_axis = s.throttle_axis := by
  simp only [buttonTriangle, JoystickController.on_throttle_changes]; split_ifs <;> rfl

@[simp] lemma buttonTriangle_steering_scale (b : String) (st : ℤ) (s : JoystickController) :
    (buttonTriangle b st s).steering_scale = s.steering_scale := by
  simp only [buttonTriangle, JoystickController.on_throttle_changes]; split_ifs <;> rfl

@[simp] lemma buttonTriangle_throttle_scale (b : String) (st : ℤ) (s : JoystickController) :
    (buttonTriangle b st s).throttle_scale = s.throttle_scale := by
  simp only [buttonTriangle, JoystickController.on_throttle_changes]; split_ifs <;> rfl

@[simp] lemma buttonTriangle_auto_record_on_throttle (b : String) (st : ℤ) (s : JoystickController) :
    (buttonTriangle b st s).auto_record_on_throttle = s.auto_record_on_throttle := by
  simp only [buttonTriangle, JoystickController.on_throttle_changes]; split_ifs <;> rfl

lemma on_throttle_changes_mode (s : JoystickController) :
    s.on_throttle_changes.mode = s.mode := by
  unfold JoystickController.on_throttle_changes; split <;> rfl

lemma on_throttle_changes_throttle (s : JoystickController) :
    s.on_throttle_changes.throttle = s.throttle := by
  unfold JoystickController.on_throttle_changes; split <;> rfl

lemma on_throttle_changes_recording (s : JoystickController) :
    s.on_throttle_changes.recording =
      if s.auto_record_on_throttle then decide (s.throttle ≠ 0 ∧ s.mode = "user")
      else s.recording := by
  unfold JoystickController.on_throttle_changes; split <;> simp_all

lemma on_throttle_changes_angle (s : JoystickController) :
    s.on_throttle_changes.angle = s.angle := by
  unfold JoystickController.on_throttle_changes; split <;> rfl

lemma on_throttle_changes_max_throttle (s : JoystickController) :
    s.on_throttle_changes.max_throttle = s.max_throttle := by
  unfold JoystickController.on_throttle_changes; split <;> rfl

lemma on_throttle_changes_steering_axis (s : JoystickController) :
    s.on_throttle_changes.steering_axis = s.steering_axis := by
  unfold JoystickController.on_throttle_changes; split <;> rfl

lemma on_throttle_changes_throttle_axis (s : JoystickController) :
    s.on_throttle_changes.throttle_axis = s.throttle_axis := by
  unfold JoystickController.on_throttle_changes; split <;> rfl

lemma on_throttle_changes_steering_scale (s : JoystickController) :
    s.on_throttle_changes.steering_scale = s.steering_scale := by
  unfold JoystickController.on_throttle_changes; split <;> rfl

lemma on_throttle_changes_throttle_scale (s : JoystickController) :
    s.on_throttle_changes.throttle_scale = s.throttle_scale := by
  unfold JoystickController.on_throttle_changes; split <;> rfl

lemma on_throttle_changes_constant_throttle (s : JoystickController) :
    s.on_throttle_changes.constant_throttle = s.constant_throttle := by
  unfold JoystickController.on_throttle_changes; split <;> rfl

lemma on_throttle_changes_auto_record_on_throttle (s : JoystickController) :
    s.on_throttle_changes.auto_record_on_throttle = s.auto_record_on_throttle := by
  unfold JoystickController.on_throttle_changes; split <;> rfl

/-! Characterization lemmas for the field each dispatch block assigns. -/

lemma axisSteering_angle (a : String) (v : ℚ) (s : JoystickController) :
    (axisSteering a v s).angle =
      if a = s.steering_axis then s.steering_scale * v else s.angle := by
  simp only [axisSteering]; split_ifs <;> rfl

lemma axisThrottle_throttle (a : String) (v : ℚ) (s : JoystickController) :
    (axisThrottle a v s).throttle =
      if a = s.throttle_axis then s.throttle_scale * v * s.max_throttle
      else s.throttle := by
  simp only [axisThrottle, JoystickController.on_throttle_changes]; split_ifs <;> rfl

lemma axisThrottle_recording (a : String) (v : ℚ) (s : JoystickController) :
    (axisThrottle a v s).recording =
      if a = s.throttle_axis then
        (if s.auto_record_on_throttle then
           decide (s.throttle_scale * v * s.max_throttle ≠ 0 ∧ s.mode = "user")
         else s.recording)
      else s.recording := by
  simp only [axisThrottle, JoystickController.on_throttle_changes]; split_ifs <;> rfl

lemma axisDpadx_steering_scale (a : String) (v : ℚ) (s : JoystickController) :
    (axisDpadx a v s).steering_scale =
      if a = "dpadx" ∧ v ≠ 0 then
        (if v > 0 then round2 (min 1 (s.steering_scale + 0.05))
         else round2 (max 0 (s.steering_scale - 0.05)))
      else s.steering_scale := by
  simp only [axisDpadx]; split_ifs <;> rfl

lemma axisDpady_throttle_scale (a : String) (v : ℚ) (s : JoystickController) :
    (axisDpady a v s).throttle_scale =
      if a = "dpady" ∧ v ≠ 0 then
        (if v < 0 then round2 (max (-1) (s.throttle_scale - 0.05))
         else round2 (min 0 (s.throttle_scale + 0.05)))
      else s.throttle_scale := by
  simp only [axisDpady]; split_ifs <;> rfl

lemma buttonR1_max_throttle (b : String) (st : ℤ) (s : JoystickController) :
    (buttonR1 b st s).max_throttle =
      if b = "r1" ∧ st = 1 then round2 (min 1 (s.max_throttle + 0.01))
      else s.max_throttle := by
  simp only [buttonR1, JoystickController.on_throttle_changes]; split_ifs <;> rfl

lemma buttonL1_max_throttle (b : String) (st : ℤ) (s : JoystickController) :
    (buttonL1 b st s).max_throttle =
      if b = "l1" ∧ st = 1 then round2 (max 0 (s.max_throttle - 0.01))
      else s.max_throttle := by
  simp only [buttonL1, JoystickController.on_throttle_changes]; split_ifs <;> rfl

lemma buttonR2_throttle_scale (b : String) (st : ℤ) (s : JoystickController) :
    (buttonR2 b st s).throttle_scale =
      if b = "r2" ∧ st = 1 then round2 (min 0 (s.throttle_scale + 0.05))
      else s.throttle_scale := by
  simp only [buttonR2]; split_ifs <;> rfl

lemma buttonL2_throttle_scale (b : String) (st : ℤ) (s : JoystickController) :
    (buttonL2 b st s).throttle_scale =
      if b = "l2" ∧ st = 1 then round2 (max (-1) (s.throttle_scale - 0.05))
      else s.throttle_scale := by
  simp only [buttonL2]; split_ifs <;> rfl

/-- Applying an axis observation runs the four axis dispatch blocks in order. -/
lemma applyObs_axisMoved (s : JoystickController) (a : String) (v : ℚ) :
    applyObs s (Obs.axisMoved a v) =
      axisDpady a v (axisDpadx a v (axisThrottle a v (axisSteering a v s))) := rfl

/-- Applying a button observation runs the seven button dispatch blocks in order. -/
lemma applyObs_buttonChanged (s : JoystickController) (b : String) (st : ℤ) :
    applyObs s (Obs.buttonChanged b st) =
      buttonTriangle b st (buttonL2 b st (buttonR2 b st (buttonL1 b st
        (buttonR1 b st (buttonCircle b st (buttonOption b st s)))))) := rfl

/-- The controller built with `JoystickController.__init__`'s default arguments. -/
def defaultController : JoystickController :=
  JoystickController.init 1 "rx" "ly" 1 (-1) true

lemma applyObs_axis_mode (s : JoystickController) (a : String) (v : ℚ) :
    (applyObs s (Obs.axisMoved a v)).mode = s.mode := by
  simp [applyObs_axisMoved]

lemma updateStep_throttle_axis (s : JoystickController) (v : ℚ) :
    (applyObs s (Obs.axisMoved s.throttle_axis v)).throttle
        = s.throttle_scale * v * s.max_throttle ∧
    (applyObs s (Obs.axisMoved s.throttle_axis v)).recording =
      (if s.auto_record_on_throttle then
         decide (s.throttle_scale * v * s.max_throttle ≠ 0 ∧ s.mode = "user")
       else s.recording) := by
  constructor
  · simp [applyObs_axisMoved, axisThrottle_throttle]
  · simp [applyObs_axisMoved, axisThrottle_recording]

lemma updateStep_steering_axis (s : JoystickController) (v : ℚ) :
    (applyObs s (Obs.axisMoved s.steering_axis v)).angle = s.steering_scale * v := by
  simp [applyObs_axisMoved, axisSteering_angle]

lemma applyObs_axis_throttle_ne (s : JoystickController) (a : String) (v : ℚ)
    (h : a ≠ s.throttle_axis) :
    (applyObs s (Obs.axisMoved a v)).throttle = s.throttle ∧
    (applyObs s (Obs.axisMoved a v)).recording = s.recording := by
  constructor
  · simp [applyObs_axisMoved, axisThrottle_throttle, h]
  · simp [applyObs_axisMoved, axisThrottle_recording, h]

lemma applyObs_button_option (s : JoystickController) :
    applyObs s (Obs.buttonChanged "option" 1) =
      { s with mode := if s.mode = "user" then "local_angle"
               else if s.mode = "local_angle" then "local" else "user" } := by
  simp [applyObs_buttonChanged, buttonOption, buttonCircle, buttonR1, buttonL1,
    buttonR2, buttonL2, buttonTriangle]

lemma applyObs_button_circle_auto (s : JoystickController)
    (h : s.auto_record_on_throttle = true) :
    applyObs s (Obs.buttonChanged "circle" 1) = s := by
  simp [applyObs_buttonChanged, buttonOption, buttonCircle, buttonR1, buttonL1,
    buttonR2, buttonL2, buttonTriangle, h]

lemma applyObs_button_r1 (s : JoystickController) :
    applyObs s (Obs.buttonChanged "r1" 1) =
      (if s.constant_throttle then
        JoystickController.on_throttle_changes
          { s with max_throttle := round2 (min 1 (s.max_throttle + 0.01)),
                   throttle := round2 (min 1 (s.max_throttle + 0.01)) }
      else { s with max_throttle := round2 (min 1 (s.max_throttle + 0.01)) }) := by
  simp [applyObs_buttonChanged, buttonOption, buttonCircle, buttonR1, buttonL1,
    buttonR2, buttonL2, buttonTriangle]

lemma applyObs_button_l1 (s : JoystickController) :
    applyObs s (Obs.buttonChanged "l1" 1) =
      (if s.constant_throttle then
        JoystickController.on_throttle_changes
          { s with max_throttle := round2 (max 0 (s.max_throttle - 0.01)),
                   throttle := round2 (max 0 (s.max_throttle - 0.01)) }
      else { s with max_throttle := round2 (max 0 (s.max_throttle - 0.01)) }) := by
  simp [applyObs_buttonChanged, buttonOption, buttonCircle, buttonR1, buttonL1,
    buttonR2, buttonL2, buttonTriangle]

lemma applyObs_button_r2 (s : JoystickController) :
    applyObs s (Obs.buttonChanged "r2" 1) =
      { s with throttle_scale := round2 (min 0 (s.throttle_scale + 0.05)) } := by
  simp [applyObs_buttonChanged, buttonOption, buttonCircle, buttonR1, buttonL1,
    buttonR2, buttonL2, buttonTriangle]

lemma applyObs_button_l2 (s : JoystickController) :
    applyObs s (Obs.buttonChanged "l2" 1) =
      { s with throttle_scale := round2 (max (-1) (s.throttle_scale - 0.05)) } := by
  simp [applyObs_buttonChanged, buttonOption, buttonCircle, buttonR1, buttonL1,
    buttonR2, buttonL2, buttonTriangle]

lemma applyObs_button_triangle (s : JoystickController) :
    applyObs s (Obs.buttonChanged "triangle" 1) =
      (if s.constant_throttle then
        JoystickController.on_throttle_changes
          { s with constant_throttle := false, throttle := 0 }
      else
        JoystickController.on_throttle_changes
          { s with constant_throttle := true, throttle := s.max_throttle }) := by
  simp [applyObs_buttonChanged, buttonOption, buttonCircle, buttonR1, buttonL1,
    buttonR2, buttonL2, buttonTriangle]

lemma applyObs_button_other (s : JoystickController) (b : String) (st : ℤ)
    (h1 : b ≠ "option") (h2 : b ≠ "circle") (h3 : b ≠ "r1") (h4 : b ≠ "l1")
    (h5 : b ≠ "r2") (h6 : b ≠ "l2") (h7 : b ≠ "triangle") :
    applyObs s (Obs.buttonChanged b st) = s := by
  simp [applyObs_buttonChanged, buttonOption, buttonCircle, buttonR1, buttonL1,
    buttonR2, buttonL2, buttonTriangle, h1, h2, h3, h4, h5, h6, h7]

lemma applyObs_button_not_pressed (s : JoystickController) (b : String) (st : ℤ)
    (h : st ≠ 1) : applyObs s (Obs.buttonChanged b st) = s := by
  simp [applyObs_buttonChanged, buttonOption, buttonCircle, buttonR1, buttonL1,
    buttonR2, buttonL2, buttonTriangle, h]

/-- A controller in user mode with the default `max_throttle` replaced by `0.3`. -/
def constantThrottleDemo : JoystickController :=
  { defaultController with max_throttle := 3/10 }

/-- A controller in user mode with nonzero throttle whose recording flag was
set by the auto-record rule. -/
def recordingDemo : JoystickController :=
  { defaultController with throttle := 2, recording := true }

/-- C1: starting from mode `user`, each press of the mode-switch button
advances the mode `user → local_angle → local → user`; three presses return
to `user`. -/
theorem mode_switch_cycle (s : JoystickController) (h : s.mode = "user") :
    (applyObs s (Obs.buttonChanged "option" 1)).mode = "local_angle" ∧
    (applyObs (applyObs s (Obs.buttonChanged "option" 1))
        (Obs.buttonChanged "option" 1)).mode = "local" ∧
    (applyObs (applyObs (applyObs s (Obs.buttonChanged "option" 1))
        (Obs.buttonChanged "option" 1)) (Obs.buttonChanged "option" 1)).mode = "user" := by
  simp [applyObs_button_option, h]

/-- C1 witness: the cycle at the default controller. -/
theorem mode_switch_cycle_witness :
    defaultController.mode = "user" ∧
    (applyObs (applyObs (applyObs defaultController (Obs.buttonChanged "option" 1))
        (Obs.buttonChanged "option" 1)) (Obs.buttonChanged "option" 1)).mode = "user" :=
  ⟨rfl, (mode_switch_cycle defaultController rfl).2.2⟩

/-- C9: a button observation whose state is not `1` (a release) leaves every
field of the controller state unchanged. -/
theorem button_release_no_effect (s : JoystickController) (b : String) (st : ℤ)
    (h : st ≠ 1) : applyObs s (Obs.buttonChanged b st) = s :=
  applyObs_button_not_pressed s b st h

/-- C9 witness: releasing `circle` on the default controller changes nothing. -/
theorem button_release_no_effect_witness :
    (0 : ℤ) ≠ 1 ∧
    applyObs defaultController (Obs.buttonChanged "circle" 0) = defaultController :=
  ⟨by decide, button_release_no_effect defaultController "circle" 0 (by decide)⟩

/-- C8: a record with the synthetic-init bit (`typev & 0x80`) set produces the
all-`None` poll result, and applying that result changes no controller field. -/
theorem init_event_no_op (js : Joystick) (s : JoystickController) (evbuf : List ℕ)
    (ev : RawEvent) (hparse : unpackIhBB evbuf = some ev)
    (hbit : ev.typev &&& 0x80 ≠ 0) :
    Joystick.poll js evbuf = Except.ok (js, PollResult.none4) ∧
    JoystickController.updateStep s PollResult.none4 = s := by
  have hne : evbuf ≠ [] := by
    intro he
    rw [he] at hparse
    simp [unpackIhBB] at hparse
  refine ⟨?_, rfl⟩
  simp [Joystick.poll, hne, hparse, hbit]

/-- C8 witness: an `eventType = 0x81` (init + button) record is ignored. -/
theorem init_event_no_op_witness :
    Joystick.poll (Joystick.init [0] [0x130]) [0, 0, 0, 0, 0, 0, 0x81, 0] =
      Except.ok (Joystick.init [0] [0x130], PollResult.none4) ∧
    JoystickController.updateStep defaultController PollResult.none4 = defaultController :=
  init_event_no_op (Joystick.init [0] [0x130]) defaultController
    [0, 0, 0, 0, 0, 0, 0x81, 0] ⟨0, 0, 0x81, 0⟩ rfl (by decide)

/-- C2 counterexample: with `auto_record_on_throttle` on, a mode-switch press
changes the mode but leaves `recording` stale, so immediately afterwards
`recording ≠ (throttle ≠ 0 ∧ mode = user)`. -/
theorem auto_record_stale_after_mode_switch :
    recordingDemo.auto_record_on_throttle = true ∧
    (applyObs recordingDemo (Obs.buttonChanged "option" 1)).mode ≠ recordingDemo.mode ∧
    (applyObs recordingDemo (Obs.buttonChanged "option" 1)).recording ≠
      decide ((applyObs recordingDemo (Obs.buttonChanged "option" 1)).throttle ≠ 0 ∧
              (applyObs recordingDemo (Obs.buttonChanged "option" 1)).mode = "user") := by
  refine ⟨rfl, ?_, ?_⟩ <;>
    simp [applyObs_button_option, recordingDemo, defaultController, JoystickController.init]

/-- C2 (amended): with `auto_record_on_throttle` on, immediately after any
observation that changes the throttle, `recording = (throttle ≠ 0 ∧ mode = user)`;
mode-only observations do not refresh `recording`. -/
theorem auto_record_tracks_throttle (s : JoystickController) (o : Obs)
    (hauto : s.auto_record_on_throttle = true)
    (hchg : (applyObs s o).throttle ≠ s.throttle) :
    (applyObs s o).recording =
      decide ((applyObs s o).throttle ≠ 0 ∧ (applyObs s o).mode = "user") := by
  cases o with
  | axisMoved a v =>
    by_cases hta : a = s.throttle_axis
    · subst hta
      obtain ⟨ht, hr⟩ := updateStep_throttle_axis s v
      rw [ht, hr, applyObs_axis_mode, hauto]
      simp
    · exact absurd (applyObs_axis_throttle_ne s a v hta).1 hchg
  | buttonChanged b st =>
    by_cases hst : st = 1
    · subst hst
      by_cases h1 : b = "option"
      · subst h1; rw [applyObs_button_option] at hchg; exact absurd rfl hchg
      by_cases h2 : b = "circle"
      · subst h2; rw [applyObs_button_circle_auto s hauto] at hchg; exact absurd rfl hchg
      by_cases h3 : b = "r1"
      · subst h3
        by_cases hc : s.constant_throttle
        · simp [applyObs_button_r1, hc, on_throttle_changes_recording,
            on_throttle_changes_throttle, on_throttle_changes_mode, hauto]
        · rw [applyObs_button_r1, if_neg (by simp [hc])] at hchg
          exact absurd rfl hchg
      by_cases h4 : b = "l1"
      · subst h4
        by_cases hc : s.constant_throttle
        · simp [applyObs_button_l1, hc, on_throttle_changes_recording,
            on_throttle_changes_throttle, on_throttle_changes_mode, hauto]
        · rw [applyObs_button_l1, if_neg (by simp [hc])] at hchg
          exact absurd rfl hchg
      by_cases h5 : b = "r2"
      · subst h5; rw [applyObs_button_r2] at hchg; exact absurd rfl hchg
      by_cases h6 : b = "l2"
      · subst h6; rw [applyObs_button_l2] at hchg; exact absurd rfl hchg
      by_cases h7 : b = "triangle"
      · subst h7
        by_cases hc : s.constant_throttle <;>
          simp [applyObs_button_triangle, hc, on_throttle_changes_recording,
            on_throttle_changes_throttle, on_throttle_changes_mode, hauto]
      · rw [applyObs_button_other s b 1 h1 h2 h3 h4 h5 h6 h7] at hchg
        exact absurd rfl hchg
    · rw [applyObs_button_not_pressed s b st hst] at hchg
      exact absurd rfl hchg

/-- C2 witness: a throttle-axis move on the default controller changes the
throttle and sets `recording` per the auto-record rule. -/
theorem auto_record_tracks_throttle_witness :
    defaultController.auto_record_on_throttle = true ∧
    (applyObs defaultController (Obs.axisMoved "ly" 1)).throttle ≠ defaultController.throttle ∧
    (applyObs defaultController (Obs.axisMoved "ly" 1)).recording =
      decide ((applyObs defaultController (Obs.axisMoved "ly" 1)).throttle ≠ 0 ∧
              (applyObs defaultController (Obs.axisMoved "ly" 1)).mode = "user") := by
  have hchg : (applyObs defaultController (Obs.axisMoved "ly" 1)).throttle ≠
      defaultController.throttle := by
    have h := (updateStep_throttle_axis defaultController 1).1
    rw [show defaultController.throttle_axis = "ly" from rfl] at h
    rw [h]
    norm_num [defaultController, JoystickController.init]
  exact ⟨rfl, hchg,
    auto_record_tracks_throttle defaultController (Obs.axisMoved "ly" 1) rfl hchg⟩

/-- C6: pressing the constant-throttle toggle (`triangle`) when off turns it on
and pins `throttle = max_throttle`; pressing it when on turns it off and sets
`throttle = 0`; both runs the auto-record rule. -/
theorem constant_throttle_toggle (s : JoystickController) :
    (s.constant_throttle = false →
       (applyObs s (Obs.buttonChanged "triangle" 1)).constant_throttle = true ∧
       (applyObs s (Obs.buttonChanged "triangle" 1)).throttle = s.max_throttle ∧
       (applyObs s (Obs.buttonChanged "triangle" 1)).recording =
         (if s.auto_record_on_throttle then
            decide (s.max_throttle ≠ 0 ∧ s.mode = "user") else s.recording)) ∧
    (s.constant_throttle = true →
       (applyObs s (Obs.buttonChanged "triangle" 1)).constant_throttle = false ∧
       (applyObs s (Obs.buttonChanged "triangle" 1)).throttle = 0 ∧
       (applyObs s (Obs.buttonChanged "triangle" 1)).recording =
         (if s.auto_record_on_throttle then
            decide ((0 : ℚ) ≠ 0 ∧ s.mode = "user") else s.recording)) := by
  constructor <;> intro hc <;>
    simp [applyObs_button_triangle, hc, on_throttle_changes_recording,
      on_throttle_changes_throttle, on_throttle_changes_mode,
      on_throttle_changes_constant_throttle]

/-- C6 witness: with `max_throttle = 0.3`, one toggle yields `throttle = 0.3`,
a second toggle yields `throttle = 0`. -/
theorem constant_throttle_toggle_witness :
    (applyObs constantThrottleDemo (Obs.buttonChanged "triangle" 1)).throttle = 3/10 ∧
    (applyObs (applyObs constantThrottleDemo (Obs.buttonChanged "triangle" 1))
        (Obs.buttonChanged "triangle" 1)).throttle = 0 := by
  have h1 := (constant_throttle_toggle constantThrottleDemo).1 rfl
  refine ⟨h1.2.1.trans rfl, ?_⟩
  exact ((constant_throttle_toggle
    (applyObs constantThrottleDemo (Obs.buttonChanged "triangle" 1))).2 h1.1).2.1

lemma poll_axis_event (js : Joystick) (evbuf : List ℕ) (ev : RawEvent) (a : String)
    (hparse : unpackIhBB evbuf = some ev)
    (hsyn : ev.typev &&& 0x80 = 0) (hbtn : ev.typev &&& 0x01 = 0)
    (haxis : ev.typev &&& 0x02 ≠ 0)
    (hmap : js.axis_map.get? ev.number = some a) (hne : a ≠ "") :
    Joystick.poll js evbuf =
      Except.ok ({ js with axis_states :=
          fun n => if n = a then (ev.value : ℚ) / 32767 else js.axis_states n },
        ⟨none, none, some a, some ((ev.value : ℚ) / 32767)⟩) := by
  have hnil : evbuf ≠ [] := by
    intro he; rw [he] at hparse; simp [unpackIhBB] at hparse
  have hmap2 : js.axis_map[ev.number]? = some a := by
    rw [← List.get?_eq_getElem?]; exact hmap
  simp [Joystick.poll, hnil, hparse, hsyn, hbtn, haxis, hmap2, hne]

lemma unpackIhBB_value_range (evbuf : List ℕ) (ev : RawEvent)
    (hbytes : ∀ b ∈ evbuf, b < 256) (hparse : unpackIhBB evbuf = some ev) :
    -32768 ≤ ev.value ∧ ev.value ≤ 32767 := by
  rcases evbuf with _|⟨b0,_|⟨b1,_|⟨b2,_|⟨b3,_|⟨b4,_|⟨b5,_|⟨b6,_|⟨b7,_|⟨b8,t⟩⟩⟩⟩⟩⟩⟩⟩⟩ <;>
    simp [unpackIhBB] at hparse
  have hb4 : b4 < 256 := hbytes b4 (by simp)
  have hb5 : b5 < 256 := hbytes b5 (by simp)
  subst hparse
  split_ifs with h <;> constructor <;> simp only [] <;> omega

/-- C4: a record decoded on the configured throttle axis yields
`throttle = throttle_scale * (value/32767) * max_throttle` and then runs the
auto-record rule. -/
theorem throttle_axis_formula (js : Joystick) (s : JoystickController)
    (evbuf : List ℕ) (ev : RawEvent)
    (hparse : unpackIhBB evbuf = some ev)
    (hsyn : ev.typev &&& 0x80 = 0) (hbtn : ev.typev &&& 0x01 = 0)
    (haxis : ev.typev &&& 0x02 ≠ 0)
    (hmap : js.axis_map.get? ev.number = some s.throttle_axis)
    (hne : s.throttle_axis ≠ "") :
    ∃ js', Joystick.poll js evbuf =
        Except.ok (js',
          (Obs.axisMoved s.throttle_axis ((ev.value : ℚ) / 32767)).toPollResult) ∧
      (applyObs s (Obs.axisMoved s.throttle_axis ((ev.value : ℚ) / 32767))).throttle =
        s.throttle_scale * ((ev.value : ℚ) / 32767) * s.max_throttle ∧
      (applyObs s (Obs.axisMoved s.throttle_axis ((ev.value : ℚ) / 32767))).recording =
        (if s.auto_record_on_throttle then
           decide (s.throttle_scale * ((ev.value : ℚ) / 32767) * s.max_throttle ≠ 0 ∧
                   s.mode = "user")
         else s.recording) := by
  refine ⟨{ js with axis_states :=
      fun n => if n = s.throttle_axis then (ev.value : ℚ) / 32767 else js.axis_states n },
    ?_, (updateStep_throttle_axis s _).1, (updateStep_throttle_axis s _).2⟩
  rw [poll_axis_event js evbuf ev s.throttle_axis hparse hsyn hbtn haxis hmap hne]
  rfl

/-- C4 witness: with `max_throttle = 1`, `throttle_scale = -1`, raw value `32767`
(normalized `1.0`) yields `throttle = -1`. -/
theorem throttle_axis_formula_witness :
    (∃ js', Joystick.poll (Joystick.init [1] []) [0, 0, 0, 0, 255, 127, 2, 0] =
        Except.ok (js',
          (Obs.axisMoved "ly" (((32767 : ℤ) : ℚ) / 32767)).toPollResult)) ∧
    (applyObs defaultController
        (Obs.axisMoved "ly" (((32767 : ℤ) : ℚ) / 32767))).throttle = -1 := by
  obtain ⟨js', hpoll, hthr, hrec⟩ :=
    throttle_axis_formula (Joystick.init [1] []) defaultController
      [0, 0, 0, 0, 255, 127, 2, 0] ⟨0, 32767, 2, 0⟩ (by decide) (by decide) (by decide)
      (by decide) (by decide) (by decide)
  exact ⟨⟨js', hpoll⟩, hthr.trans (by norm_num [defaultController, JoystickController.init])⟩

/-- C5: a record decoded on the configured steering axis yields
`angle = steering_scale * (value/32767)` exactly — no clamping — and the raw
value of a well-formed byte record is a signed 16-bit integer. -/
theorem steering_axis_formula (js : Joystick) (s : JoystickController)
    (evbuf : List ℕ) (ev : RawEvent)
    (hbytes : ∀ b ∈ evbuf, b < 256)
    (hparse : unpackIhBB evbuf = some ev)
    (hsyn : ev.typev &&& 0x80 = 0) (hbtn : ev.typev &&& 0x01 = 0)
    (haxis : ev.typev &&& 0x02 ≠ 0)
    (hmap : js.axis_map.get? ev.number = some s.steering_axis)
    (hne : s.steering_axis ≠ "") :
    (-32768 ≤ ev.value ∧ ev.value ≤ 32767) ∧
    ∃ js', Joystick.poll js evbuf =
        Except.ok (js',
          (Obs.axisMoved s.steering_axis ((ev.value : ℚ) / 32767)).toPollResult) ∧
      (applyObs s (Obs.axisMoved s.steering_axis ((ev.value : ℚ) / 32767))).angle =
        s.steering_scale * ((ev.value : ℚ) / 32767) := by
  refine ⟨unpackIhBB_value_range evbuf ev hbytes hparse,
    { js with axis_states :=
        fun n => if n = s.steering_axis then (ev.value : ℚ) / 32767 else js.axis_states n },
    ?_, updateStep_steering_axis s _⟩
  rw [poll_axis_event js evbuf ev s.steering_axis hparse hsyn hbtn haxis hmap hne]
  rfl

/-- C5 witness: the extreme raw value `-32768` passes through unclamped, giving
an angle of magnitude greater than `1`. -/
theorem steering_axis_formula_witness :
    (∃ js', Joystick.poll (Joystick.init [3] []) [0, 0, 0, 0, 0, 128, 2, 0] =
        Except.ok (js',
          (Obs.axisMoved "rx" (((-32768 : ℤ) : ℚ) / 32767)).toPollResult)) ∧
    (applyObs defaultController
        (Obs.axisMoved "rx" (((-32768 : ℤ) : ℚ) / 32767))).angle = -32768 / 32767 ∧
    (applyObs defaultController
        (Obs.axisMoved "rx" (((-32768 : ℤ) : ℚ) / 32767))).angle < -1 := by
  obtain ⟨hrange, js', hpoll, hangle⟩ :=
    steering_axis_formula (Joystick.init [3] []) defaultController
      [0, 0, 0, 0, 0, 128, 2, 0] ⟨0, -32768, 2, 0⟩ (by decide) (by decide) (by decide)
      (by decide) (by decide) (by decide) (by decide)
  have h2 : (applyObs defaultController
      (Obs.axisMoved "rx" (((-32768 : ℤ) : ℚ) / 32767))).angle = -32768 / 32767 :=
    hangle.trans (by norm_num [defaultController, JoystickController.init])
  refine ⟨⟨js', hpoll⟩, h2, ?_⟩
  rw [h2]; norm_num

/-- C3 counterexample: a button record whose index is beyond the discovered
button table makes `poll` raise `IndexError` — it is not a silent no-op. -/
theorem out_of_range_index_crashes :
    Joystick.poll (Joystick.init [0] [0x130]) [0, 0, 0, 0, 1, 0, 1, 5] =
      Except.error "IndexError" ∧
    (Joystick.init [0] [0x130]).button_map.length ≤ 5 :=
  ⟨rfl, by decide⟩

/-- C3 (amended): a well-formed record whose index is at or beyond the length
of the corresponding capability table makes `poll` fail with `IndexError`
(the uncaught Python list-index failure), rather than silently emitting
nothing. -/
theorem out_of_range_index_raises (js : Joystick) (evbuf : List ℕ) (ev : RawEvent)
    (hparse : unpackIhBB evbuf = some ev) (hsyn : ev.typev &&& 0x80 = 0)
    (h : (ev.typev &&& 0x01 ≠ 0 ∧ js.button_map.length ≤ ev.number) ∨
         (ev.typev &&& 0x01 = 0 ∧ ev.typev &&& 0x02 ≠ 0 ∧
          js.axis_map.length ≤ ev.number)) :
    Joystick.poll js evbuf = Except.error "IndexError" := by
  have hnil : evbuf ≠ [] := by
    intro he; rw [he] at hparse; simp [unpackIhBB] at hparse
  rcases h with ⟨hb, hlen⟩ | ⟨hb, ha, hlen⟩
  · have hg : js.button_map[ev.number]? = none := by
      rw [← List.get?_eq_getElem?]; exact List.get?_eq_none.mpr hlen
    simp at hb
    simp [Joystick.poll, hnil, hparse, hsyn, hb, hg]
  · have hg : js.axis_map[ev.number]? = none := by
      rw [← List.get?_eq_getElem?]; exact List.get?_eq_none.mpr hlen
    simp [Joystick.poll, hnil, hparse, hsyn, hb, ha, hg]

/-- C3 witness: an axis record with index `7` against a one-entry axis table
fails with `IndexError`. -/
theorem out_of_range_index_raises_witness :
    Joystick.poll (Joystick.init [0] [0x130]) [0, 0, 0, 0, 1, 0, 2, 7] =
      Except.error "IndexError" :=
  out_of_range_index_raises (Joystick.init [0] [0x130]) [0, 0, 0, 0, 1, 0, 2, 7]
    ⟨0, 1, 2, 7⟩ (by decide) (by decide) (Or.inr ⟨by decide, by decide, by decide⟩)

lemma pyRound_eq (x : ℚ) :
    pyRound x =
      if x - ⌊x⌋ < 1/2 then ⌊x⌋
      else if 1/2 < x - ⌊x⌋ then ⌊x⌋ + 1
      else if ⌊x⌋ % 2 = 0 then ⌊x⌋ else ⌊x⌋ + 1 := rfl

lemma le_pyRound (x : ℚ) (a : ℤ) (h : (a : ℚ) ≤ x) : a ≤ pyRound x := by
  have hf : a ≤ ⌊x⌋ := Int.le_floor.mpr h
  rw [pyRound_eq]
  split_ifs <;> omega

lemma pyRound_le (x : ℚ) (b : ℤ) (h : x ≤ (b : ℚ)) : pyRound x ≤ b := by
  have hfl : ⌊x⌋ ≤ b := by
    have := Int.floor_le_floor h
    rwa [Int.floor_intCast] at this
  have hfx : (⌊x⌋ : ℚ) ≤ x := Int.floor_le x
  rw [pyRound_eq]
  split_ifs with h1 h2 h3
  · exact hfl
  · push_neg at h1
    have hlt : (⌊x⌋ : ℚ) < (b : ℚ) := by linarith
    have : ⌊x⌋ < b := by exact_mod_cast hlt
    omega
  · exact hfl
  · push_neg at h1
    have hlt : (⌊x⌋ : ℚ) < (b : ℚ) := by linarith
    have : ⌊x⌋ < b := by exact_mod_cast hlt
    omega

lemma round2_bounds_01 (q : ℚ) (h0 : 0 ≤ q) (h1 : q ≤ 1) :
    0 ≤ round2 q ∧ round2 q ≤ 1 := by
  unfold round2
  constructor
  · have h2 : (0 : ℤ) ≤ pyRound (100 * q) := le_pyRound _ 0 (by push_cast; linarith)
    have h3 : (0 : ℚ) ≤ (pyRound (100 * q) : ℚ) := by exact_mod_cast h2
    linarith
  · have h2 : pyRound (100 * q) ≤ (100 : ℤ) := pyRound_le _ 100 (by push_cast; linarith)
    have h3 : (pyRound (100 * q) : ℚ) ≤ (100 : ℚ) := by exact_mod_cast h2
    linarith

lemma round2_bounds_neg10 (q : ℚ) (h0 : -1 ≤ q) (h1 : q ≤ 0) :
    -1 ≤ round2 q ∧ round2 q ≤ 0 := by
  unfold round2
  constructor
  · have h2 : (-100 : ℤ) ≤ pyRound (100 * q) := le_pyRound _ (-100) (by push_cast; linarith)
    have h3 : ((-100 : ℤ) : ℚ) ≤ (pyRound (100 * q) : ℚ) := by exact_mod_cast h2
    push_cast at h3
    linarith
  · have h2 : pyRound (100 * q) ≤ (0 : ℤ) := pyRound_le _ 0 (by push_cast; linarith)
    have h3 : (pyRound (100 * q) : ℚ) ≤ (0 : ℚ) := by exact_mod_cast h2
    linarith

lemma applyObs_steering_scale_cases (s : JoystickController) (o : Obs) :
    (applyObs s o).steering_scale = s.steering_scale ∨
    (applyObs s o).steering_scale = round2 (min 1 (s.steering_scale + 0.05)) ∨
    (applyObs s o).steering_scale = round2 (max 0 (s.steering_scale - 0.05)) := by
  cases o with
  | axisMoved a v =>
    simp only [applyObs_axisMoved, axisDpady_steering_scale, axisDpadx_steering_scale,
      axisThrottle_steering_scale, axisSteering_steering_scale]
    split_ifs <;> simp
  | buttonChanged b st =>
    simp [applyObs_buttonChanged]

lemma applyObs_throttle_scale_cases (s : JoystickController) (o : Obs) :
    (applyObs s o).throttle_scale = s.throttle_scale ∨
    (applyObs s o).throttle_scale = round2 (max (-1) (s.throttle_scale - 0.05)) ∨
    (applyObs s o).throttle_scale = round2 (min 0 (s.throttle_scale + 0.05)) := by
  cases o with
  | axisMoved a v =>
    simp only [applyObs_axisMoved, axisDpady_throttle_scale, axisDpadx_throttle_scale,
      axisThrottle_throttle_scale, axisSteering_throttle_scale]
    split_ifs <;> simp
  | buttonChanged b st =>
    simp only [applyObs_buttonChanged, buttonTriangle_throttle_scale,
      buttonL2_throttle_scale, buttonR2_throttle_scale, buttonL1_throttle_scale,
      buttonR1_throttle_scale, buttonCircle_throttle_scale, buttonOption_throttle_scale]
    split_ifs <;> simp_all

lemma applyObs_max_throttle_cases (s : JoystickController) (o : Obs) :
    (applyObs s o).max_throttle = s.max_throttle ∨
    (applyObs s o).max_throttle = round2 (min 1 (s.max_throttle + 0.01)) ∨
    (applyObs s o).max_throttle = round2 (max 0 (s.max_throttle - 0.01)) := by
  cases o with
  | axisMoved a v =>
    simp [applyObs_axisMoved]
  | buttonChanged b st =>
    simp only [applyObs_buttonChanged, buttonTriangle_max_throttle,
      buttonL2_max_throttle, buttonR2_max_throttle, buttonL1_max_throttle,
      buttonR1_max_throttle, buttonCircle_max_throttle, buttonOption_max_throttle]
    split_ifs <;> simp_all

/-- The documented ranges of the three adjustable scale parameters. -/
def scalesInRange (s : JoystickController) : Prop :=
  0 ≤ s.steering_scale ∧ s.steering_scale ≤ 1 ∧
  -1 ≤ s.throttle_scale ∧ s.throttle_scale ≤ 0 ∧
  0 ≤ s.max_throttle ∧ s.max_throttle ≤ 1

lemma scalesInRange_applyObs (s : JoystickController) (o : Obs)
    (h : scalesInRange s) : scalesInRange (applyObs s o) := by
  obtain ⟨h1, h2, h3, h4, h5, h6⟩ := h
  have Hss : 0 ≤ (applyObs s o).steering_scale ∧ (applyObs s o).steering_scale ≤ 1 := by
    rcases applyObs_steering_scale_cases s o with hc | hc | hc <;> rw [hc]
    · exact ⟨h1, h2⟩
    · exact round2_bounds_01 _ (le_min_iff.mpr ⟨by norm_num, by linarith⟩) (min_le_left _ _)
    · exact round2_bounds_01 _ (le_max_left _ _) (max_le_iff.mpr ⟨by norm_num, by linarith⟩)
  have Hts : -1 ≤ (applyObs s o).throttle_scale ∧ (applyObs s o).throttle_scale ≤ 0 := by
    rcases applyObs_throttle_scale_cases s o with hc | hc | hc <;> rw [hc]
    · exact ⟨h3, h4⟩
    · exact round2_bounds_neg10 _ (le_max_left _ _) (max_le_iff.mpr ⟨by norm_num, by linarith⟩)
    · exact round2_bounds_neg10 _ (le_min_iff.mpr ⟨by norm_num, by linarith⟩) (min_le_left _ _)
  have Hmt : 0 ≤ (applyObs s o).max_throttle ∧ (applyObs s o).max_throttle ≤ 1 := by
    rcases applyObs_max_throttle_cases s o with hc | hc | hc <;> rw [hc]
    · exact ⟨h5, h6⟩
    · exact round2_bounds_01 _ (le_min_iff.mpr ⟨by norm_num, by linarith⟩) (min_le_left _ _)
    · exact round2_bounds_01 _ (le_max_left _ _) (max_le_iff.mpr ⟨by norm_num, by linarith⟩)
  exact ⟨Hss.1, Hss.2, Hts.1, Hts.2, Hmt.1, Hmt.2⟩

/-- C7: if the three scale parameters start in their documented ranges
(`steering_scale ∈ [0,1]`, `throttle_scale ∈ [-1,0]`, `max_throttle ∈ [0,1]`),
they remain in range after any sequence of observations, including all dpad
and button scale adjustments. -/
theorem scales_remain_in_range (s : JoystickController) (l : List Obs)
    (h : scalesInRange s) : scalesInRange (l.foldl applyObs s) := by
  induction l generalizing s with
  | nil => exact h
  | cons o t ih => exact ih (applyObs s o) (scalesInRange_applyObs s o h)

/-- C7 witness: the default controller stays in range across a dpad and
button adjustment sequence. -/
theorem scales_remain_in_range_witness :
    scalesInRange defaultController ∧
    scalesInRange ([Obs.axisMoved "dpadx" 1, Obs.axisMoved "dpady" (-1),
        Obs.buttonChanged "r1" 1].foldl applyObs defaultController) := by
  have hd : scalesInRange defaultController := by
    norm_num [scalesInRange, defaultController, JoystickController.init]
  exact ⟨hd, scales_remain_in_range defaultController _ hd⟩

/-- C10: `Joystick.init` starts every axis/button state cache at `0`, and a
successful `poll` writes exactly the returned name/value pairs into the
caches: the returned axis name maps to the returned normalized value, the
returned button name to the returned state, and every other entry is
unchanged. -/
theorem poll_cache_invariant :
    (∀ axisIds buttonIds n,
        (Joystick.init axisIds buttonIds).axis_states n = 0 ∧
        (Joystick.init axisIds buttonIds).button_states n = 0) ∧
    (∀ js evbuf js' r, Joystick.poll js evbuf = Except.ok (js', r) →
        (∀ a v, r.axis = some a → r.axis_val = some v → js'.axis_states a = v) ∧
        (∀ b st, r.button = some b → r.button_state = some st →
           js'.button_states b = st) ∧
        (∀ n, r.axis ≠ some n → js'.axis_states n = js.axis_states n) ∧
        (∀ n, r.button ≠ some n → js'.button_states n = js.button_states n)) := by
  constructor
  · intro axisIds buttonIds n
    exact ⟨rfl, rfl⟩
  · intro js evbuf js' r h
    simp only [Joystick.poll] at h
    by_cases hnil : evbuf = []
    · simp only [if_pos hnil] at h
      simp only [Except.ok.injEq, Prod.mk.injEq] at h
      obtain ⟨rfl, rfl⟩ := h
      refine ⟨?_, ?_, ?_, ?_⟩
      · intro a2 v2 ha hv
        exact absurd ha (by simp [PollResult.none4])
      · intro b2 st2 hb2 hst2
        exact absurd hb2 (by simp [PollResult.none4])
      · intro n hn
        rfl
      · intro n hn
        rfl
    simp only [if_neg hnil] at h
    cases hu : unpackIhBB evbuf with
    | none => simp only [hu] at h; exact Except.noConfusion h
    | some ev =>
      simp only [hu] at h
      by_cases hsyn : ev.typev &&& 0x80 ≠ 0
      · simp only [if_pos hsyn] at h
        simp only [Except.ok.injEq, Prod.mk.injEq] at h
        obtain ⟨rfl, rfl⟩ := h
        refine ⟨?_, ?_, ?_, ?_⟩
        · intro a2 v2 ha hv
          exact absurd ha (by simp [PollResult.none4])
        · intro b2 st2 hb2 hst2
          exact absurd hb2 (by simp [PollResult.none4])
        · intro n hn
          rfl
        · intro n hn
          rfl
      simp only [if_neg hsyn] at h
      by_cases hb : ev.typev &&& 0x01 ≠ 0
      · simp only [if_pos hb] at h
        cases hbm : js.button_map.get? ev.number with
        | none => simp only [hbm] at h; exact Except.noConfusion h
        | some b =>
          simp only [hbm] at h
          by_cases hbe : b ≠ ""
          · simp only [if_pos hbe] at h
            by_cases hax : ev.typev &&& 0x02 ≠ 0
            · simp only [if_pos hax] at h
              cases ham : js.axis_map.get? ev.number with
              | none => simp only [ham] at h; exact Except.noConfusion h
              | some a =>
                simp only [ham] at h
                by_cases hae : a ≠ ""
                · simp only [if_pos hae] at h
                  simp only [Except.ok.injEq, Prod.mk.injEq] at h
                  obtain ⟨rfl, rfl⟩ := h
                  refine ⟨?_, ?_, ?_, ?_⟩
                  · intro a2 v2 ha hv
                    obtain rfl := Option.some.inj ha
                    obtain rfl := Option.some.inj hv
                    simp
                  · intro b2 st2 hb2 hst2
                    obtain rfl := Option.some.inj hb2
                    obtain rfl := Option.some.inj hst2
                    simp
                  · intro n hn
                    have hna : ¬(n = a) := fun he => hn (by rw [he])
                    simp [hna]
                  · intro n hn
                    have hnb : ¬(n = b) := fun he => hn (by rw [he])
                    simp [hnb]
                · simp only [if_neg hae] at h
                  simp only [Except.ok.injEq, Prod.mk.injEq] at h
                  obtain ⟨rfl, rfl⟩ := h
                  refine ⟨?_, ?_, ?_, ?_⟩
                  · intro a2 v2 ha hv
                    exact absurd hv (by simp)
                  · intro b2 st2 hb2 hst2
                    obtain rfl := Option.some.inj hb2
                    obtain rfl := Option.some.inj hst2
                    simp
                  · intro n hn
                    rfl
                  · intro n hn
                    have hnb : ¬(n = b) := fun he => hn (by rw [he])
                    simp [hnb]
            · simp only [if_neg hax] at h
              simp only [Except.ok.injEq, Prod.mk.injEq] at h
              obtain ⟨rfl, rfl⟩ := h
              refine ⟨?_, ?_, ?_, ?_⟩
              · intro a2 v2 ha hv
                exact absurd ha (by simp)
              · intro b2 st2 hb2 hst2
                obtain rfl := Option.some.inj hb2
                obtain rfl := Option.some.inj hst2
                simp
              · intro n hn
                rfl
              · intro n hn
                have hnb : ¬(n = b) := fun he => hn (by rw [he])
                simp [hnb]
          · simp only [if_neg hbe] at h
            by_cases hax : ev.typev &&& 0x02 ≠ 0
            · simp only [if_pos hax] at h
              cases ham : js.axis_map.get? ev.number with
              | none => simp only [ham] at h; exact Except.noConfusion h
              | some a =>
                simp only [ham] at h
                by_cases hae : a ≠ ""
                · simp only [if_pos hae] at h
                  simp only [Except.ok.injEq, Prod.mk.injEq] at h
                  obtain ⟨rfl, rfl⟩ := h
                  refine ⟨?_, ?_, ?_, ?_⟩
                  · intro a2 v2 ha hv
                    obtain rfl := Option.some.inj ha
                    obtain rfl := Option.some.inj hv
                    simp
                  · intro b2 st2 hb2 hst2
                    exact absurd hst2 (by simp)
                  · intro n hn
                    have hna : ¬(n = a) := fun he => hn (by rw [he])
                    simp [hna]
                  · intro n hn
                    rfl
                · simp only [if_neg hae] at h
                  simp only [Except.ok.injEq, Prod.mk.injEq] at h
                  obtain ⟨rfl, rfl⟩ := h
                  refine ⟨?_, ?_, ?_, ?_⟩
                  · intro a2 v2 ha hv
                    exact absurd hv (by simp)
                  · intro b2 st2 hb2 hst2
                    exact absurd hst2 (by simp)
                  · intro n hn
                    rfl
                  · intro n hn
                    rfl
            · simp only [if_neg hax] at h
              simp only [Except.ok.injEq, Prod.mk.injEq] at h
              obtain ⟨rfl, rfl⟩ := h
              refine ⟨?_, ?_, ?_, ?_⟩
              · intro a2 v2 ha hv
                exact absurd ha (by simp)
              · intro b2 st2 hb2 hst2
                exact absurd hst2 (by simp)
              · intro n hn
                rfl
              · intro n hn
                rfl
      · simp only [if_neg hb] at h
        by_cases hax : ev.typev &&& 0x02 ≠ 0
        · simp only [if_pos hax] at h
          cases ham : js.axis_map.get? ev.number with
          | none => simp only [ham] at h; exact Except.noConfusion h
          | some a =>
            simp only [ham] at h
            by_cases hae : a ≠ ""
            · simp only [if_pos hae] at h
              simp only [Except.ok.injEq, Prod.mk.injEq] at h
              obtain ⟨rfl, rfl⟩ := h
              refine ⟨?_, ?_, ?_, ?_⟩
              · intro a2 v2 ha hv
                obtain rfl := Option.some.inj ha
                obtain rfl := Option.some.inj hv
                simp
              · intro b2 st2 hb2 hst2
                exact absurd hb2 (by simp)
              · intro n hn
                have hna : ¬(n = a) := fun he => hn (by rw [he])
                simp [hna]
              · intro n hn
                rfl
            · simp only [if_neg hae] at h
              simp only [Except.ok.injEq, Prod.mk.injEq] at h
              obtain ⟨rfl, rfl⟩ := h
              refine ⟨?_, ?_, ?_, ?_⟩
              · intro a2 v2 ha hv
                exact absurd hv (by simp)
              · intro b2 st2 hb2 hst2
                exact absurd hb2 (by simp)
              · intro n hn
                rfl
              · intro n hn
                rfl
        · simp only [if_neg hax] at h
          simp only [Except.ok.injEq, Prod.mk.injEq] at h
          obtain ⟨rfl, rfl⟩ := h
          refine ⟨?_, ?_, ?_, ?_⟩
          · intro a2 v2 ha hv
            exact absurd ha (by simp)
          · intro b2 st2 hb2 hst2
            exact absurd hb2 (by simp)
          · intro n hn
            rfl
          · intro n hn
            rfl

/-- C10 witness: the `init` caches start at `0`; a concrete `cross` button press is
written into the button cache. -/
theorem poll_cache_invariant_witness :
    (Joystick.init [0] [0x130]).axis_states "lx" = 0 ∧
    ({ Joystick.init [0] [0x130] with button_states :=
        fun n => if n = "cross" then 1 else
          (Joystick.init [0] [0x130]).button_states n } : Joystick).button_states
      "cross" = 1 := by
  have hpoll : Joystick.poll (Joystick.init [0] [0x130]) [0, 0, 0, 0, 1, 0, 1, 0] =
      Except.ok ({ Joystick.init [0] [0x130] with button_states :=
          fun n => if n = "cross" then 1 else
            (Joystick.init [0] [0x130]).button_states n },
        ⟨some "cross", some 1, none, none⟩) := rfl
  exact ⟨(poll_cache_invariant.1 [0] [0x130] "lx").1,
    (poll_cache_invariant.2 (Joystick.init [0] [0x130]) [0, 0, 0, 0, 1, 0, 1, 0]
        _ _ hpoll).2.1 "cross" 1 rfl rfl⟩
